import Mathlib

/-!
Verification of the Energetium physical-chemistry calculation library
(`src/wasm/src/lib.rs`).

The Rust source is shallowly embedded below.  IEEE-754 doubles are
idealised as exact rationals (`ℚ`) where the computation is algebraic, and
as real numbers (`ℝ`) where it uses the transcendental functions `exp`,
`ln`, `log10`.  Byte-buffer inputs that hold UTF-8 text are modelled as
`String` (the UTF-8 validation step is the identity on valid text);
JSON-structured inputs (lists of pairs, maps of records) are modelled as
already-decoded typed values, and JSON serialisation of an output record
is modelled as the ordered field list the serialiser emits.
-/

namespace Energetium

instance {ε α : Type} [DecidableEq ε] [DecidableEq α] : DecidableEq (Except ε α) :=
  fun a b =>
  match a, b with
  | .error e1, .error e2 =>
    if h : e1 = e2 then isTrue (congrArg Except.error h)
    else isFalse (fun hh => h (by injection hh))
  | .error _, .ok _ => isFalse (fun hh => Except.noConfusion hh)
  | .ok _, .error _ => isFalse (fun hh => Except.noConfusion hh)
  | .ok v1, .ok v2 =>
    if h : v1 = v2 then isTrue (congrArg Except.ok h)
    else isFalse (fun hh => h (by injection hh))

/-- Thermodynamic record for one species, mirroring struct
`ThermodynamicData` (fields `delta_hf`, `s`, `delta_gf`; serialised field
names `delta_Hf`, `S`, `delta_Gf`). -/
structure ThermodynamicData where
  delta_hf : ℚ
  entropyS : ℚ
  delta_gf : ℚ
deriving DecidableEq

/-- Result record, mirroring struct `CalculationResult` with
`#[serde(skip_serializing_if = "Option::is_none")]` on `formatted`.
The value type is a parameter so both the `ℚ`-modelled and the
`ℝ`-modelled operations can use it. -/
structure CalculationResult (α : Type) where
  value : α
  unit : String
  formatted : Option String
deriving DecidableEq

/-- Mirrors `CalculationResult::new`, which always sets `formatted: None`. -/
def CalculationResult.new {α : Type} (value : α) (unit : String) :
    CalculationResult α :=
  { value := value, unit := unit, formatted := none }

/-- A serialised JSON scalar: number or string. -/
inductive JVal (α : Type) where
  | num (x : α)
  | str (t : String)
deriving DecidableEq

/-- Serialisation of a `CalculationResult` by `serde_json::to_vec`: the
fields in declaration order, with `formatted` omitted entirely when it is
`None`. -/
def encodeResult {α : Type} (r : CalculationResult α) : List (String × JVal α) :=
  [("value", JVal.num r.value), ("unit", JVal.str r.unit)] ++
    (match r.formatted with
     | none => []
     | some f => [("formatted", JVal.str f)])

/-- Serialisation of a `ThermodynamicData` by `serde_json::to_vec`: the
fields in declaration order under their `#[serde(rename = ...)]` names. -/
def encodeThermo (d : ThermodynamicData) : List (String × JVal ℚ) :=
  [("delta_Hf", JVal.num d.delta_hf), ("S", JVal.num d.entropyS),
   ("delta_Gf", JVal.num d.delta_gf)]

/-- The species table decoded from `data_json`: a finite map from formula
to record, modelled as an association list; `lookupData` is `HashMap::get`. -/
def lookupData (data : List (String × ThermodynamicData)) (formula : String) :
    Option ThermodynamicData :=
  data.lookup formula

/-- Numeric value of a digit run (used by the literal parsers). -/
def digitsVal (cs : List Char) : ℕ :=
  cs.foldl (fun a c => a * 10 + (c.toNat - 48)) 0

/-- Exponent part of a float literal: optional sign then a nonempty digit
run. -/
def parseExpPart (cs : List Char) : Option ℤ :=
  match cs with
  | '+' :: rest =>
      if rest ≠ [] ∧ rest.all Char.isDigit then some (digitsVal rest) else none
  | '-' :: rest =>
      if rest ≠ [] ∧ rest.all Char.isDigit then some (-(digitsVal rest : ℤ)) else none
  | rest =>
      if rest ≠ [] ∧ rest.all Char.isDigit then some (digitsVal rest) else none

/-- Mantissa-and-exponent body of a float literal: digits, optional
`.digits`, optional `e`/`E` exponent; at least one digit overall. -/
def parseF64Body (cs : List Char) : Option ℚ :=
  let intd := cs.takeWhile Char.isDigit
  let rest := cs.dropWhile Char.isDigit
  match rest with
  | [] => if intd = [] then none else some (digitsVal intd)
  | '.' :: rest2 =>
      let fracd := rest2.takeWhile Char.isDigit
      let rest3 := rest2.dropWhile Char.isDigit
      if intd = [] ∧ fracd = [] then none
      else
        let base : ℚ := (digitsVal intd : ℚ) + (digitsVal fracd : ℚ) / 10 ^ fracd.length
        match rest3 with
        | [] => some base
        | c :: rest4 =>
            if c = 'e' ∨ c = 'E' then
              (parseExpPart rest4).map (fun ex => base * 10 ^ ex)
            else none
  | c :: rest2 =>
      if (c = 'e' ∨ c = 'E') ∧ intd ≠ [] then
        (parseExpPart rest2).map (fun ex => (digitsVal intd : ℚ) * 10 ^ ex)
      else none

/-- Model of Rust `str::parse::<f64>()` on decimal literals, idealised to
exact rationals: optional sign, then digits with optional fraction and
optional decimal exponent.  (The non-finite literals `inf`/`NaN` have no
rational denotation and are outside the model.) -/
def parseF64 (text : String) : Option ℚ :=
  match text.toList with
  | '+' :: rest => parseF64Body rest
  | '-' :: rest => (parseF64Body rest).map (fun v => -v)
  | rest => parseF64Body rest

/-- Model of Rust `str::parse::<bool>()`: exactly `"true"` or `"false"`. -/
def parseBool (text : String) : Option Bool :=
  if text = "true" then some true
  else if text = "false" then some false
  else none

/-- Model of Rust `str::parse::<usize>()`: optional `+` sign then a
nonempty digit run. -/
def parseUsize (text : String) : Option ℕ :=
  let cs := match text.toList with
    | '+' :: rest => rest
    | rest => rest
  if cs ≠ [] ∧ cs.all Char.isDigit then some (digitsVal cs) else none

/-- Model of Rust `str::parse::<i32>()`: optional sign, nonempty digit
run, value within the `i32` range. -/
def parseI32 (text : String) : Option ℤ :=
  let signed : Option ℤ :=
    match text.toList with
    | '+' :: rest =>
        if rest ≠ [] ∧ rest.all Char.isDigit then some (digitsVal rest) else none
    | '-' :: rest =>
        if rest ≠ [] ∧ rest.all Char.isDigit then some (-(digitsVal rest : ℤ)) else none
    | rest =>
        if rest ≠ [] ∧ rest.all Char.isDigit then some (digitsVal rest) else none
  match signed with
  | some v => if -(2 ^ 31) ≤ v ∧ v < 2 ^ 31 then some v else none
  | none => none

/-- Left-pad a digit string with zeros to the requested width. -/
def padLeftZeros (digits : String) (width : ℕ) : String :=
  String.mk (List.replicate (width - digits.length) '0') ++ digits

/-- Round to the nearest integer, ties to even: the rounding Rust's float
formatting applies to the (here exact) value. -/
def roundHalfEven (q : ℚ) : ℤ :=
  if q - ⌊q⌋ < 1 / 2 then ⌊q⌋
  else if 1 / 2 < q - ⌊q⌋ then ⌊q⌋ + 1
  else if 2 ∣ ⌊q⌋ then ⌊q⌋ else ⌊q⌋ + 1

/-- Model of Rust `format!("{:.prec$}", value)`: fixed-point rendering
with exactly `precision` digits after the decimal point. -/
def formatFixed (value : ℚ) (precision : ℕ) : String :=
  let scaled := roundHalfEven (|value| * 10 ^ precision)
  let ipart := scaled / 10 ^ precision
  let fpart := scaled % 10 ^ precision
  (if value < 0 then "-" else "") ++ toString ipart.toNat ++
    (if precision = 0 then "" else "." ++ padLeftZeros (toString fpart.toNat) precision)

/-- Mirrors fn `format_scientific` (src/wasm/src/lib.rs:9-24):
zero short-circuits to `"0"`; otherwise `exponent` is
`abs_value.log10().floor()` (exactly `Int.log 10 |value|` on the
idealised value) and `mantissa = value / 10^exponent`; values with
`|exponent| < 3` inside `[0.001, 1000)` render fixed-point, the rest as
`mantissa×10^exponent`. -/
def format_scientific (value : ℚ) (precision : ℕ) : String :=
  if value = 0 then "0"
  else
    let exponent : ℤ := Int.log 10 |value|
    let mantissa : ℚ := value / 10 ^ exponent
    if |exponent| < 3 ∧ 1 / 1000 ≤ |value| ∧ |value| < 1000 then
      formatFixed value precision
    else
      formatFixed mantissa precision ++ "×10^" ++ toString exponent

/-- The formatting decision of fn `format_number` after its inputs are
decoded (src/wasm/src/lib.rs:231-235). -/
def formatNumberCore (value : ℚ) (precision : ℕ) (use_scientific : Bool) : String :=
  if use_scientific then format_scientific value precision
  else formatFixed value precision

/-- One accumulation loop of the reaction-property functions in the added
direction: `delta += coeff * sel(data[formula])`, failing fast with
`"No data found for {role}: {formula}"` when a formula is absent
(src/wasm/src/lib.rs:78-82). -/
def addTermContribs (role : String) (sel : ThermodynamicData → ℚ)
    (data : List (String × ThermodynamicData)) :
    List (String × ℚ) → ℚ → Except String ℚ
  | [], acc => .ok acc
  | (formula, coeff) :: rest, acc =>
    match lookupData data formula with
    | none => .error ("No data found for " ++ role ++ ": " ++ formula)
    | some td => addTermContribs role sel data rest (acc + coeff * sel td)

/-- The subtracting accumulation loop: `delta -= coeff * sel(data[formula])`
(src/wasm/src/lib.rs:85-89). -/
def subTermContribs (role : String) (sel : ThermodynamicData → ℚ)
    (data : List (String × ThermodynamicData)) :
    List (String × ℚ) → ℚ → Except String ℚ
  | [], acc => .ok acc
  | (formula, coeff) :: rest, acc =>
    match lookupData data formula with
    | none => .error ("No data found for " ++ role ++ ": " ++ formula)
    | some td => subTermContribs role sel data rest (acc - coeff * sel td)

/-- Core of fn `calculate_reaction_enthalpy` after JSON decoding
(src/wasm/src/lib.rs:75-91): starting from `0.0`, add the product
contributions over `delta_hf`, then subtract the reactant contributions,
and wrap the total with unit `kJ/mol`. -/
def calculate_reaction_enthalpy_core
    (reactants products : List (String × ℚ))
    (data : List (String × ThermodynamicData)) :
    Except String (CalculationResult ℚ) :=
  match addTermContribs "product" ThermodynamicData.delta_hf data products 0 with
  | .error e => .error e
  | .ok afterProducts =>
    match subTermContribs "reactant" ThermodynamicData.delta_hf data reactants afterProducts with
    | .error e => .error e
    | .ok delta_h => .ok (CalculationResult.new delta_h "kJ/mol")

/-- Fn `calculate_reaction_enthalpy` (src/wasm/src/lib.rs:59-94) with the
serialisation step made explicit. -/
def calculate_reaction_enthalpy
    (reactants products : List (String × ℚ))
    (data : List (String × ThermodynamicData)) :
    Except String (List (String × JVal ℚ)) :=
  Except.map encodeResult (calculate_reaction_enthalpy_core reactants products data)

/-- Core of fn `calculate_reaction_entropy` after JSON decoding
(src/wasm/src/lib.rs:113-127): the same two loops over the entropy field,
with unit `J/(mol·K)`. -/
def calculate_reaction_entropy_core
    (reactants products : List (String × ℚ))
    (data : List (String × ThermodynamicData)) :
    Except String (CalculationResult ℚ) :=
  match addTermContribs "product" ThermodynamicData.entropyS data products 0 with
  | .error e => .error e
  | .ok afterProducts =>
    match subTermContribs "reactant" ThermodynamicData.entropyS data reactants afterProducts with
    | .error e => .error e
    | .ok delta_s => .ok (CalculationResult.new delta_s "J/(mol·K)")

/-- Fn `calculate_reaction_entropy` (src/wasm/src/lib.rs:99-130) with the
serialisation step made explicit. -/
def calculate_reaction_entropy
    (reactants products : List (String × ℚ))
    (data : List (String × ThermodynamicData)) :
    Except String (List (String × JVal ℚ)) :=
  Except.map encodeResult (calculate_reaction_entropy_core reactants products data)

/-- The strict decode-a-float step used by every scalar input that has no
tolerant default: `parse().map_err(|e| format!("Failed to parse {name}: {e}"))?`. -/
def parseFloatField (text : String) (name : String) : Except String ℚ :=
  match parseF64 text with
  | some v => .ok v
  | none => .error ("Failed to parse " ++ name ++ ": invalid float literal")

/-- Core of fn `calculate_gibbs_energy` (src/wasm/src/lib.rs:156-158):
`ΔG = ΔH − T·(ΔS/1000)` with unit `kJ/mol`. -/
def gibbs_core (enthalpy entropy temperature : ℚ) : CalculationResult ℚ :=
  CalculationResult.new (enthalpy - temperature * (entropy / 1000)) "kJ/mol"

/-- Fn `calculate_gibbs_energy` (src/wasm/src/lib.rs:135-161): three
strict float inputs, then the Gibbs formula, then serialisation. -/
def calculate_gibbs_energy (enthalpy_str entropy_str temperature_str : String) :
    Except String (List (String × JVal ℚ)) :=
  match parseFloatField enthalpy_str "enthalpy" with
  | .error e => .error e
  | .ok h =>
    match parseFloatField entropy_str "entropy" with
    | .error e => .error e
    | .ok sVal =>
      match parseFloatField temperature_str "temperature" with
      | .error e => .error e
      | .ok t => .ok (encodeResult (gibbs_core h sVal t))

/-- Core of fn `calculate_equilibrium_constant`
(src/wasm/src/lib.rs:180-185): `K = exp(−ΔG·1000/(R·T))` with
`R = 8.314` and empty unit string. -/
noncomputable def equilibrium_core (delta_g temperature : ℝ) : CalculationResult ℝ :=
  CalculationResult.new (Real.exp (-delta_g * 1000 / (8.314 * temperature))) ""

/-- Fn `calculate_equilibrium_constant` (src/wasm/src/lib.rs:166-188). -/
noncomputable def calculate_equilibrium_constant (gibbs_str temperature_str : String) :
    Except String (List (String × JVal ℝ)) :=
  match parseFloatField gibbs_str "Gibbs energy" with
  | .error e => .error e
  | .ok g =>
    match parseFloatField temperature_str "temperature" with
    | .error e => .error e
    | .ok t => .ok (encodeResult (equilibrium_core (g : ℝ) (t : ℝ)))

/-- Fn `get_substance_data` (src/wasm/src/lib.rs:192-206): look the
formula up and serialise the raw `ThermodynamicData` record itself. -/
def get_substance_data (formula : String)
    (data : List (String × ThermodynamicData)) :
    Except String (List (String × JVal ℚ)) :=
  match lookupData data formula with
  | none => .error ("No data found for substance: " ++ formula)
  | some d => .ok (encodeThermo d)

/-- Fn `format_number` (src/wasm/src/lib.rs:211-238): a strict float
value, a precision falling back to `2` on parse failure, a boolean flag
falling back to `false` on parse failure, and the formatted string
returned directly as the output bytes. -/
def format_number (value_str precision_str scientific_str : String) :
    Except String String :=
  match parseFloatField value_str "value" with
  | .error e => .error e
  | .ok value =>
    let precision := (parseUsize precision_str).getD 2
    let use_scientific := (parseBool scientific_str).getD false
    .ok (formatNumberCore value precision use_scientific)

/-- Core of fn `calculate_rate_constant_arrhenius`
(src/wasm/src/lib.rs:270-275): `k = A·exp(−Ea·1000/(R·T))`, empty unit. -/
noncomputable def arrhenius_core (a ea temperature : ℝ) : CalculationResult ℝ :=
  CalculationResult.new (a * Real.exp (-ea * 1000 / (8.314 * temperature))) ""

/-- Fn `calculate_rate_constant_arrhenius` (src/wasm/src/lib.rs:250-278). -/
noncomputable def calculate_rate_constant_arrhenius (a_str ea_str temperature_str : String) :
    Except String (List (String × JVal ℝ)) :=
  match parseFloatField a_str "A" with
  | .error e => .error e
  | .ok a =>
    match parseFloatField ea_str "Ea" with
    | .error e => .error e
    | .ok ea =>
      match parseFloatField temperature_str "temperature" with
      | .error e => .error e
      | .ok t => .ok (encodeResult (arrhenius_core (a : ℝ) (ea : ℝ) (t : ℝ)))

/-- Core of fn `calculate_rate_constant_eyring`
(src/wasm/src/lib.rs:311-324): `ΔG‡ = ΔH‡·1000 − T·ΔS‡` and
`k = (kB/h)·(T/Nₐ)·exp(−ΔG‡/(R·T))`, unit `s⁻¹`. -/
noncomputable def eyring_core (delta_h delta_s temperature : ℝ) : CalculationResult ℝ :=
  CalculationResult.new
    ((1.380649e-23 / 6.62607015e-34) * temperature / 6.02214076e23 *
      Real.exp (-(delta_h * 1000 - temperature * delta_s) / (8.314 * temperature)))
    "s⁻¹"

/-- Fn `calculate_rate_constant_eyring` (src/wasm/src/lib.rs:291-327). -/
noncomputable def calculate_rate_constant_eyring (dh_str ds_str temperature_str : String) :
    Except String (List (String × JVal ℝ)) :=
  match parseFloatField dh_str "ΔH‡" with
  | .error e => .error e
  | .ok dh =>
    match parseFloatField ds_str "ΔS‡" with
    | .error e => .error e
    | .ok ds =>
      match parseFloatField temperature_str "temperature" with
      | .error e => .error e
      | .ok t => .ok (encodeResult (eyring_core (dh : ℝ) (ds : ℝ) (t : ℝ)))

/-- Core of fn `calculate_activation_energy`
(src/wasm/src/lib.rs:359-364): `Ea = R·ln(k₂/k₁)/(1/T₁ − 1/T₂)/1000`,
unit `kJ/mol`. -/
noncomputable def activation_core (k1 t1 k2 t2 : ℝ) : CalculationResult ℝ :=
  CalculationResult.new (8.314 * Real.log (k2 / k1) / (1 / t1 - 1 / t2) / 1000) "kJ/mol"

/-- Fn `calculate_activation_energy` (src/wasm/src/lib.rs:333-367). -/
noncomputable def calculate_activation_energy (k1_str t1_str k2_str t2_str : String) :
    Except String (List (String × JVal ℝ)) :=
  match parseFloatField k1_str "k1" with
  | .error e => .error e
  | .ok k1 =>
    match parseFloatField t1_str "T1" with
    | .error e => .error e
    | .ok t1 =>
      match parseFloatField k2_str "k2" with
      | .error e => .error e
      | .ok k2 =>
        match parseFloatField t2_str "T2" with
        | .error e => .error e
        | .ok t2 => .ok (encodeResult (activation_core (k1 : ℝ) (t1 : ℝ) (k2 : ℝ) (t2 : ℝ)))

/-- Core of fn `calculate_half_life` (src/wasm/src/lib.rs:392-399): the
order-dispatched half-life formulas with unit `s`, other orders rejected
with `"Unsupported reaction order: {order}"`. -/
noncomputable def half_life_core (k : ℝ) (order : ℤ) (initial_conc : ℝ) :
    Except String (CalculationResult ℝ) :=
  if order = 0 then .ok (CalculationResult.new (initial_conc / (2 * k)) "s")
  else if order = 1 then .ok (CalculationResult.new (Real.log 2 / k) "s")
  else if order = 2 then .ok (CalculationResult.new (1 / (k * initial_conc)) "s")
  else .error ("Unsupported reaction order: " ++ toString order)

/-- Fn `calculate_half_life` (src/wasm/src/lib.rs:372-402): strict float
`k`, strict `i32` order (error `"Failed to parse order: …"`), tolerant
initial concentration defaulting to `1.0`. -/
noncomputable def calculate_half_life (k_str order_str conc_str : String) :
    Except String (List (String × JVal ℝ)) :=
  match parseFloatField k_str "k" with
  | .error e => .error e
  | .ok k =>
    match parseI32 order_str with
    | none => .error "Failed to parse order: invalid digit found in string"
    | some order =>
      let initial_conc := (parseF64 conc_str).getD 1
      Except.map encodeResult (half_life_core (k : ℝ) order (initial_conc : ℝ))

/-- The mathematical coefficient-weighted sum of one term list under a
field selector (the value the accumulation loops compute when every
lookup succeeds). -/
def sumContrib (sel : ThermodynamicData → ℚ)
    (data : List (String × ThermodynamicData)) (terms : List (String × ℚ)) : ℚ :=
  (terms.map (fun t => t.2 * sel ((lookupData data t.1).getD ⟨0, 0, 0⟩))).sum

/-- Whether an `Except` outcome is the error case. -/
def isErr {ε α : Type} : Except ε α → Bool
  | .error _ => true
  | .ok _ => false

/-- The `value`/`unit`/optional-`formatted` field-list shape of a
serialised `CalculationResult`. -/
def isResultShape {α : Type} (fields : List (String × JVal α)) : Prop :=
  fields.map Prod.fst = ["value", "unit"] ∨
    fields.map Prod.fst = ["value", "unit", "formatted"]

theorem addTermContribs_ok (role : String) (sel : ThermodynamicData → ℚ)
    (data : List (String × ThermodynamicData)) :
    ∀ (terms : List (String × ℚ)),
      (∀ t ∈ terms, (lookupData data t.1).isSome) → ∀ acc : ℚ,
      addTermContribs role sel data terms acc = .ok (acc + sumContrib sel data terms) := by
  intro terms
  induction terms with
  | nil => intro _ acc; simp [addTermContribs, sumContrib]
  | cons hd tl ih =>
    intro h acc
    obtain ⟨td, htd⟩ := Option.isSome_iff_exists.mp (h hd (List.mem_cons_self hd tl))
    have htl : ∀ t ∈ tl, (lookupData data t.1).isSome :=
      fun t ht => h t (List.mem_cons_of_mem hd ht)
    obtain ⟨f, c⟩ := hd
    simp only [addTermContribs, htd, ih htl]
    simp [sumContrib, htd, add_assoc]

theorem subTermContribs_ok (role : String) (sel : ThermodynamicData → ℚ)
    (data : List (String × ThermodynamicData)) :
    ∀ (terms : List (String × ℚ)),
      (∀ t ∈ terms, (lookupData data t.1).isSome) → ∀ acc : ℚ,
      subTermContribs role sel data terms acc = .ok (acc - sumContrib sel data terms) := by
  intro terms
  induction terms with
  | nil => intro _ acc; simp [subTermContribs, sumContrib]
  | cons hd tl ih =>
    intro h acc
    obtain ⟨td, htd⟩ := Option.isSome_iff_exists.mp (h hd (List.mem_cons_self hd tl))
    have htl : ∀ t ∈ tl, (lookupData data t.1).isSome :=
      fun t ht => h t (List.mem_cons_of_mem hd ht)
    obtain ⟨f, c⟩ := hd
    simp only [subTermContribs, htd, ih htl]
    simp [sumContrib, htd, sub_sub]

theorem addTermContribs_missing (role : String) (sel : ThermodynamicData → ℚ)
    (data : List (String × ThermodynamicData)) :
    ∀ (terms : List (String × ℚ)),
      (∃ t ∈ terms, lookupData data t.1 = none) →
      ∃ f, (∃ c, (f, c) ∈ terms) ∧ lookupData data f = none ∧
        ∀ acc : ℚ, addTermContribs role sel data terms acc =
          .error ("No data found for " ++ role ++ ": " ++ f) := by
  intro terms
  induction terms with
  | nil => rintro ⟨t, ht, _⟩; exact absurd ht (List.not_mem_nil t)
  | cons hd tl ih =>
    rintro ⟨t, ht, hnone⟩
    obtain ⟨f0, c0⟩ := hd
    rcases List.mem_cons.mp ht with heq | htl
    · subst heq
      cases hcase : lookupData data f0 with
      | none =>
        exact ⟨f0, ⟨c0, List.mem_cons_self _ _⟩, hcase,
          fun acc => by simp [addTermContribs, hcase]⟩
      | some td => rw [hcase] at hnone; cases hnone
    · cases hcase : lookupData data f0 with
      | none =>
        exact ⟨f0, ⟨c0, List.mem_cons_self _ _⟩, hcase,
          fun acc => by simp [addTermContribs, hcase]⟩
      | some td =>
        obtain ⟨f, ⟨c, hc⟩, hfnone, herr⟩ := ih ⟨t, htl, hnone⟩
        exact ⟨f, ⟨c, List.mem_cons_of_mem _ hc⟩, hfnone,
          fun acc => by simp [addTermContribs, hcase, herr]⟩

theorem subTermContribs_missing (role : String) (sel : ThermodynamicData → ℚ)
    (data : List (String × ThermodynamicData)) :
    ∀ (terms : List (String × ℚ)),
      (∃ t ∈ terms, lookupData data t.1 = none) →
      ∃ f, (∃ c, (f, c) ∈ terms) ∧ lookupData data f = none ∧
        ∀ acc : ℚ, subTermContribs role sel data terms acc =
          .error ("No data found for " ++ role ++ ": " ++ f) := by
  intro terms
  induction terms with
  | nil => rintro ⟨t, ht, _⟩; exact absurd ht (List.not_mem_nil t)
  | cons hd tl ih =>
    rintro ⟨t, ht, hnone⟩
    obtain ⟨f0, c0⟩ := hd
    rcases List.mem_cons.mp ht with heq | htl
    · subst heq
      cases hcase : lookupData data f0 with
      | none =>
        exact ⟨f0, ⟨c0, List.mem_cons_self _ _⟩, hcase,
          fun acc => by simp [subTermContribs, hcase]⟩
      | some td => rw [hcase] at hnone; cases hnone
    · cases hcase : lookupData data f0 with
      | none =>
        exact ⟨f0, ⟨c0, List.mem_cons_self _ _⟩, hcase,
          fun acc => by simp [subTermContribs, hcase]⟩
      | some td =>
        obtain ⟨f, ⟨c, hc⟩, hfnone, herr⟩ := ih ⟨t, htl, hnone⟩
        exact ⟨f, ⟨c, List.mem_cons_of_mem _ hc⟩, hfnone,
          fun acc => by simp [subTermContribs, hcase, herr]⟩

theorem enthalpy_core_eval (reactants products : List (String × ℚ))
    (data : List (String × ThermodynamicData))
    (h : ∀ t ∈ reactants ++ products, (lookupData data t.1).isSome) :
    calculate_reaction_enthalpy_core reactants products data =
      .ok ⟨sumContrib ThermodynamicData.delta_hf data products -
             sumContrib ThermodynamicData.delta_hf data reactants, "kJ/mol", none⟩ := by
  have hr : ∀ t ∈ reactants, (lookupData data t.1).isSome :=
    fun t ht => h t (List.mem_append_left _ ht)
  have hp : ∀ t ∈ products, (lookupData data t.1).isSome :=
    fun t ht => h t (List.mem_append_right _ ht)
  simp [calculate_reaction_enthalpy_core,
    addTermContribs_ok "product" ThermodynamicData.delta_hf data products hp,
    subTermContribs_ok "reactant" ThermodynamicData.delta_hf data reactants hr,
    CalculationResult.new]

theorem entropy_core_eval (reactants products : List (String × ℚ))
    (data : List (String × ThermodynamicData))
    (h : ∀ t ∈ reactants ++ products, (lookupData data t.1).isSome) :
    calculate_reaction_entropy_core reactants products data =
      .ok ⟨sumContrib ThermodynamicData.entropyS data products -
             sumContrib ThermodynamicData.entropyS data reactants, "J/(mol·K)", none⟩ := by
  have hr : ∀ t ∈ reactants, (lookupData data t.1).isSome :=
    fun t ht => h t (List.mem_append_left _ ht)
  have hp : ∀ t ∈ products, (lookupData data t.1).isSome :=
    fun t ht => h t (List.mem_append_right _ ht)
  simp [calculate_reaction_entropy_core,
    addTermContribs_ok "product" ThermodynamicData.entropyS data products hp,
    subTermContribs_ok "reactant" ThermodynamicData.entropyS data reactants hr,
    CalculationResult.new]

theorem sumContrib_perm (sel : ThermodynamicData → ℚ)
    (data : List (String × ThermodynamicData)) {l1 l2 : List (String × ℚ)}
    (h : l1.Perm l2) : sumContrib sel data l1 = sumContrib sel data l2 :=
  List.Perm.sum_eq (h.map _)

/-- C1: for every reaction query whose formulas all occur in the species
mapping, `calculate_reaction_enthalpy` returns the products-minus-reactants
coefficient-weighted sum of `delta_Hf` with unit `kJ/mol`, and
`calculate_reaction_entropy` the analogous sum over the entropy field with
unit `J/(mol·K)`. -/
theorem reaction_enthalpy_entropy_formulas
    (reactants products : List (String × ℚ))
    (data : List (String × ThermodynamicData))
    (h : ∀ t ∈ reactants ++ products, (lookupData data t.1).isSome) :
    calculate_reaction_enthalpy_core reactants products data =
      .ok ⟨sumContrib ThermodynamicData.delta_hf data products -
             sumContrib ThermodynamicData.delta_hf data reactants, "kJ/mol", none⟩ ∧
    calculate_reaction_entropy_core reactants products data =
      .ok ⟨sumContrib ThermodynamicData.entropyS data products -
             sumContrib ThermodynamicData.entropyS data reactants, "J/(mol·K)", none⟩ :=
  ⟨enthalpy_core_eval reactants products data h,
   entropy_core_eval reactants products data h⟩

unseal Rat.add Rat.sub Rat.mul Rat.inv Rat.ofScientific in
theorem reaction_enthalpy_entropy_formulas_witness :
    calculate_reaction_enthalpy_core [("H2", 2), ("O2", 1)] [("H2O", 2)]
        [("H2O", ⟨-286, 70, -237⟩), ("H2", ⟨0, 131, 0⟩), ("O2", ⟨0, 205, 0⟩)] =
      .ok ⟨-572, "kJ/mol", none⟩ ∧
    calculate_reaction_entropy_core [("H2", 2), ("O2", 1)] [("H2O", 2)]
        [("H2O", ⟨-286, 70, -237⟩), ("H2", ⟨0, 131, 0⟩), ("O2", ⟨0, 205, 0⟩)] =
      .ok ⟨-327, "J/(mol·K)", none⟩ := by
  have h := reaction_enthalpy_entropy_formulas [("H2", 2), ("O2", 1)] [("H2O", 2)]
    [("H2O", ⟨-286, 70, -237⟩), ("H2", ⟨0, 131, 0⟩), ("O2", ⟨0, 205, 0⟩)] (by decide)
  exact ⟨h.1.trans (by decide), h.2.trans (by decide)⟩

/-- C9: the aggregation combines a sign `−1` reactant partial sum and a
sign `+1` product partial sum additively in the product-minus-reactant
convention, and reordering terms within either list leaves the result
unchanged (exact arithmetic: invariance holds on the nose, so in
particular up to floating-point rounding). -/
theorem aggregation_signed_partial_sums
    (reactants products r2 p2 : List (String × ℚ))
    (data : List (String × ThermodynamicData))
    (h : ∀ t ∈ reactants ++ products, (lookupData data t.1).isSome)
    (hr : r2.Perm reactants) (hp : p2.Perm products) :
    calculate_reaction_enthalpy_core reactants products data =
      .ok ⟨(-1) * sumContrib ThermodynamicData.delta_hf data reactants +
             1 * sumContrib ThermodynamicData.delta_hf data products, "kJ/mol", none⟩ ∧
    calculate_reaction_enthalpy_core r2 p2 data =
      calculate_reaction_enthalpy_core reactants products data ∧
    calculate_reaction_entropy_core reactants products data =
      .ok ⟨(-1) * sumContrib ThermodynamicData.entropyS data reactants +
             1 * sumContrib ThermodynamicData.entropyS data products, "J/(mol·K)", none⟩ ∧
    calculate_reaction_entropy_core r2 p2 data =
      calculate_reaction_entropy_core reactants products data := by
  have h2 : ∀ t ∈ r2 ++ p2, (lookupData data t.1).isSome :=
    fun t ht => h t ((hr.append hp).mem_iff.mp ht)
  refine ⟨?_, ?_, ?_, ?_⟩
  · rw [enthalpy_core_eval reactants products data h]
    simp [sub_eq_neg_add]
  · rw [enthalpy_core_eval reactants products data h, enthalpy_core_eval r2 p2 data h2,
      sumContrib_perm ThermodynamicData.delta_hf data hr,
      sumContrib_perm ThermodynamicData.delta_hf data hp]
  · rw [entropy_core_eval reactants products data h]
    simp [sub_eq_neg_add]
  · rw [entropy_core_eval reactants products data h, entropy_core_eval r2 p2 data h2,
      sumContrib_perm ThermodynamicData.entropyS data hr,
      sumContrib_perm ThermodynamicData.entropyS data hp]

unseal Rat.add Rat.sub Rat.mul Rat.inv Rat.ofScientific in
theorem aggregation_signed_partial_sums_witness :
    calculate_reaction_enthalpy_core [("O2", 1), ("H2", 2)] [("H2O", 2)]
        [("H2O", ⟨-286, 70, -237⟩), ("H2", ⟨0, 131, 0⟩), ("O2", ⟨0, 205, 0⟩)] =
      calculate_reaction_enthalpy_core [("H2", 2), ("O2", 1)] [("H2O", 2)]
        [("H2O", ⟨-286, 70, -237⟩), ("H2", ⟨0, 131, 0⟩), ("O2", ⟨0, 205, 0⟩)] :=
  (aggregation_signed_partial_sums [("H2", 2), ("O2", 1)] [("H2O", 2)]
    [("O2", 1), ("H2", 2)] [("H2O", 2)]
    [("H2O", ⟨-286, 70, -237⟩), ("H2", ⟨0, 131, 0⟩), ("O2", ⟨0, 205, 0⟩)]
    (by decide) (by decide) (by decide)).2.1

/-- C4: a reaction query containing a formula absent from the species
mapping makes both reaction-property operations fail with an error that
names a missing formula and its role (`product` checked first, then
`reactant`); the result is the error alone, never a sum that defaulted
the species to zero. -/
theorem missing_species_fails
    (reactants products : List (String × ℚ))
    (data : List (String × ThermodynamicData)) (t : String × ℚ)
    (ht : t ∈ reactants ++ products) (hmiss : lookupData data t.1 = none) :
    (∃ f, lookupData data f = none ∧
      (((∃ c, (f, c) ∈ products) ∧
          calculate_reaction_enthalpy_core reactants products data =
            .error ("No data found for product: " ++ f)) ∨
       ((∃ c, (f, c) ∈ reactants) ∧
          calculate_reaction_enthalpy_core reactants products data =
            .error ("No data found for reactant: " ++ f)))) ∧
    (∃ f, lookupData data f = none ∧
      (((∃ c, (f, c) ∈ products) ∧
          calculate_reaction_entropy_core reactants products data =
            .error ("No data found for product: " ++ f)) ∨
       ((∃ c, (f, c) ∈ reactants) ∧
          calculate_reaction_entropy_core reactants products data =
            .error ("No data found for reactant: " ++ f)))) := by
  by_cases hp : ∃ u ∈ products, lookupData data u.1 = none
  · obtain ⟨f, hc, hfnone, herr⟩ :=
      addTermContribs_missing "product" ThermodynamicData.delta_hf data products hp
    obtain ⟨f2, hc2, hf2none, herr2⟩ :=
      addTermContribs_missing "product" ThermodynamicData.entropyS data products hp
    refine ⟨⟨f, hfnone, Or.inl ⟨hc, ?_⟩⟩, ⟨f2, hf2none, Or.inl ⟨hc2, ?_⟩⟩⟩
    · simp [calculate_reaction_enthalpy_core, herr 0]
    · simp [calculate_reaction_entropy_core, herr2 0]
  · have hpall : ∀ u ∈ products, (lookupData data u.1).isSome := by
      intro u hu
      cases hcase : lookupData data u.1 with
      | none => exact absurd ⟨u, hu, hcase⟩ hp
      | some _ => rfl
    have htr : t ∈ reactants := by
      rcases List.mem_append.mp ht with h1 | h1
      · exact h1
      · exact absurd ⟨t, h1, hmiss⟩ hp
    obtain ⟨f, hc, hfnone, herr⟩ :=
      subTermContribs_missing "reactant" ThermodynamicData.delta_hf data reactants
        ⟨t, htr, hmiss⟩
    obtain ⟨f2, hc2, hf2none, herr2⟩ :=
      subTermContribs_missing "reactant" ThermodynamicData.entropyS data reactants
        ⟨t, htr, hmiss⟩
    refine ⟨⟨f, hfnone, Or.inr ⟨hc, ?_⟩⟩, ⟨f2, hf2none, Or.inr ⟨hc2, ?_⟩⟩⟩
    · simp [calculate_reaction_enthalpy_core,
        addTermContribs_ok "product" ThermodynamicData.delta_hf data products hpall,
        herr]
    · simp [calculate_reaction_entropy_core,
        addTermContribs_ok "product" ThermodynamicData.entropyS data products hpall,
        herr2]

unseal Rat.add Rat.sub Rat.mul Rat.inv Rat.ofScientific in
theorem missing_species_fails_witness :
    calculate_reaction_enthalpy_core [("XX2", 1)] [] [] =
      .error "No data found for reactant: XX2" := by
  obtain ⟨h1, _⟩ := missing_species_fails [("XX2", 1)] [] [] ("XX2", 1)
    (by decide) (by decide)
  obtain ⟨f, hfnone, hcase⟩ := h1
  rcases hcase with ⟨⟨c, hc⟩, _⟩ | ⟨⟨c, hc⟩, herr⟩
  · exact absurd hc (List.not_mem_nil (f, c))
  · have hf : f = "XX2" := by
      rcases List.mem_singleton.mp hc with h
      exact congrArg Prod.fst h
    rw [hf] at herr
    exact herr

/-- C5: `calculate_half_life` returns `[A]₀/(2k)` for order 0, `ln 2 / k`
for order 1, `1/(k·[A]₀)` for order 2, each with unit `s`, and fails with
an invalid-order error citing the given order exactly when the order is
outside `{0, 1, 2}`. -/
theorem half_life_order_cases (k initial_conc : ℝ) (order : ℤ) :
    (order = 0 → half_life_core k order initial_conc =
      .ok (CalculationResult.new (initial_conc / (2 * k)) "s")) ∧
    (order = 1 → half_life_core k order initial_conc =
      .ok (CalculationResult.new (Real.log 2 / k) "s")) ∧
    (order = 2 → half_life_core k order initial_conc =
      .ok (CalculationResult.new (1 / (k * initial_conc)) "s")) ∧
    (¬(order = 0 ∨ order = 1 ∨ order = 2) ↔
      half_life_core k order initial_conc =
        .error ("Unsupported reaction order: " ++ toString order)) := by
  refine ⟨?_, ?_, ?_, ?_, ?_⟩
  · intro h; subst h; simp [half_life_core]
  · intro h; subst h; simp [half_life_core]
  · intro h; subst h; simp [half_life_core]
  · intro h
    push_neg at h
    obtain ⟨h0, h1, h2⟩ := h
    simp [half_life_core, h0, h1, h2]
  · intro herr
    rintro (h | h | h) <;> subst h <;> simp [half_life_core] at herr

theorem half_life_order_cases_witness :
    half_life_core 1 3 1 = .error "Unsupported reaction order: 3" := by
  have h := (half_life_order_cases 1 1 3).2.2.2.mp (by decide)
  exact h.trans (congrArg Except.error (by decide))

/-- C6: `calculate_equilibrium_constant` computes
`K = exp(−ΔG·1000/(R·T))` with `R = 8.314` and an empty (dimensionless)
unit, and for nonzero temperature the round trip `−R·T·ln(K)/1000`
recovers ΔG exactly (hence within floating-point tolerance). -/
theorem equilibrium_constant_roundtrip (g t : ℝ) (ht : t ≠ 0) :
    equilibrium_core g t =
      CalculationResult.new (Real.exp (-g * 1000 / (8.314 * t))) "" ∧
    -8.314 * t * Real.log ((equilibrium_core g t).value) / 1000 = g := by
  refine ⟨rfl, ?_⟩
  have hval : (equilibrium_core g t).value = Real.exp (-g * 1000 / (8.314 * t)) := rfl
  rw [hval, Real.log_exp]
  have h8 : (8.314 : ℝ) ≠ 0 := by norm_num
  field_simp

theorem equilibrium_constant_roundtrip_witness :
    -8.314 * 1 * Real.log ((equilibrium_core 7 1).value) / 1000 = 7 :=
  (equilibrium_constant_roundtrip 7 1 one_ne_zero).2

theorem formatFixed_zero (p : ℕ) :
    formatFixed 0 p = "0" ++ (if p = 0 then "" else "." ++ padLeftZeros "0" p) := by
  have h0 : roundHalfEven 0 = 0 := by
    simp [roundHalfEven]
  have ht : toString (0 : ℕ) = "0" := rfl
  simp [formatFixed, h0, ht]

unseal Rat.add Rat.sub Rat.mul Rat.inv Rat.ofScientific in
/-- C2 counterexample: with the scientific flag clear and precision 2, the
value `0.0` formats as `"0.00"`, not as the literal `"0"` the claim
requires for every flag value. -/
theorem format_zero_not_always_bare : formatNumberCore 0 2 false ≠ "0" := by
  decide

/-- C2 amended: `0.0` renders as the literal `"0"` whenever the
scientific flag is set; with the flag clear it renders as a fixed-point
zero with `precision` fractional digits, which equals `"0"` exactly when
the precision is `0`. -/
theorem format_zero_amended (p : ℕ) (sci : Bool) :
    formatNumberCore 0 p sci = (if sci then "0" else formatFixed 0 p) ∧
    (formatFixed 0 p = "0" ↔ p = 0) := by
  constructor
  · cases sci <;> simp [formatNumberCore, format_scientific]
  · rw [formatFixed_zero]
    cases p with
    | zero => simp
    | succ n =>
      simp only [Nat.succ_ne_zero, if_false, iff_false]
      intro h
      have hlen := congrArg String.length h
      simp [String.length_append, padLeftZeros] at hlen
      exact absurd hlen.1 (by decide)

unseal Rat.add Rat.sub Rat.mul Rat.inv Rat.ofScientific in
theorem format_zero_amended_witness :
    formatNumberCore 0 3 true = "0" ∧ formatNumberCore 0 3 false = "0.000" := by
  have h := format_zero_amended 3 true
  have h2 := format_zero_amended 3 false
  refine ⟨by simpa using h.1, ?_⟩
  rw [h2.1]
  decide

theorem intLog_ratCast (q : ℚ) (hq : 0 < q) :
    Int.log 10 ((q : ℝ)) = Int.log 10 q := by
  have hq2 : (0 : ℝ) < (q : ℝ) := by exact_mod_cast hq
  apply le_antisymm
  · rw [← Int.zpow_le_iff_le_log (by norm_num) hq]
    have h2 := Int.zpow_log_le_self (R := ℝ) (b := 10) (by norm_num) hq2
    rw [show ((10 : ℕ) : ℝ) = (((10 : ℚ) : ℝ)) by norm_num, ← Rat.cast_zpow] at h2
    have h3 : ((10 : ℚ) ^ Int.log 10 ((q : ℝ)) : ℚ) ≤ q := by exact_mod_cast h2
    exact_mod_cast h3
  · rw [← Int.zpow_le_iff_le_log (by norm_num) hq2]
    have h2 := Int.zpow_log_le_self (R := ℚ) (b := 10) (by norm_num) hq
    have h3 : (((10 : ℚ) ^ Int.log 10 q : ℚ) : ℝ) ≤ (q : ℝ) := by exact_mod_cast h2
    rw [Rat.cast_zpow] at h3
    have h4 : (((10 : ℚ) : ℝ)) = ((10 : ℕ) : ℝ) := by norm_num
    rw [h4] at h3
    exact_mod_cast h3

theorem floor_logb_abs (v : ℚ) (hv : v ≠ 0) :
    ⌊Real.logb 10 |(v : ℝ)|⌋ = Int.log 10 |v| := by
  have h0 : (0 : ℚ) < |v| := abs_pos.mpr hv
  have hcast : |(v : ℝ)| = ((|v| : ℚ) : ℝ) := by push_cast; rfl
  rw [hcast]
  have h1 := Real.floor_logb_natCast (b := 10) (Rat.cast_nonneg.mpr (le_of_lt h0))
  rw [show ((10 : ℕ) : ℝ) = (10 : ℝ) by norm_num] at h1
  rw [h1, intLog_ratCast |v| h0]

/-- C7: for nonzero values under the scientific flag, with
`exponent = ⌊log10 |value|⌋` and `mantissa = value / 10^exponent`, the
output is the plain fixed-point rendering (identical to non-scientific
formatting) exactly when `|exponent| < 3` and `0.001 ≤ |value| < 1000`,
and is `"{mantissa:.precision}×10^{exponent}"` otherwise. -/
theorem format_scientific_band (v : ℚ) (p : ℕ) (hv : v ≠ 0) :
    format_scientific v p =
      if |⌊Real.logb 10 |(v : ℝ)|⌋| < 3 ∧ 1 / 1000 ≤ |v| ∧ |v| < 1000 then
        formatNumberCore v p false
      else
        formatFixed (v / 10 ^ ⌊Real.logb 10 |(v : ℝ)|⌋) p ++ "×10^" ++
          toString ⌊Real.logb 10 |(v : ℝ)|⌋ := by
  rw [floor_logb_abs v hv]
  simp [format_scientific, formatNumberCore, hv]

unseal Rat.add Rat.sub Rat.mul Rat.inv Rat.ofScientific in
theorem format_scientific_band_witness : format_scientific 500 2 = "500.00" := by
  have h := format_scientific_band 500 2 (by norm_num)
  rw [floor_logb_abs 500 (by norm_num)] at h
  have habs : |(500 : ℚ)| = 500 := by norm_num
  have hnat : Nat.log 10 500 = 2 :=
    Nat.log_eq_of_pow_le_of_lt_pow (by norm_num) (by norm_num)
  have hlog : Int.log 10 |(500 : ℚ)| = 2 := by
    rw [habs, Int.log_of_one_le_right 10 (by norm_num)]
    norm_num [hnat]
  rw [hlog] at h
  rw [h, if_pos (by norm_num)]
  decide

theorem isResultShape_encode {α : Type} (r : CalculationResult α) :
    isResultShape (encodeResult r) := by
  cases h : r.formatted <;> simp [isResultShape, encodeResult, h]

theorem not_formatted_of_encode_none {α : Type} (r : CalculationResult α)
    (h : r.formatted = none) : "formatted" ∉ (encodeResult r).map Prod.fst := by
  simp [encodeResult, h]

theorem enthalpy_core_formatted_none (reactants products : List (String × ℚ))
    (data : List (String × ThermodynamicData)) (res : CalculationResult ℚ)
    (h : calculate_reaction_enthalpy_core reactants products data = .ok res) :
    res.formatted = none := by
  unfold calculate_reaction_enthalpy_core at h
  split at h
  · cases h
  · split at h
    · cases h
    · cases h; rfl

theorem entropy_core_formatted_none (reactants products : List (String × ℚ))
    (data : List (String × ThermodynamicData)) (res : CalculationResult ℚ)
    (h : calculate_reaction_entropy_core reactants products data = .ok res) :
    res.formatted = none := by
  unfold calculate_reaction_entropy_core at h
  split at h
  · cases h
  · split at h
    · cases h
    · cases h; rfl

theorem half_life_core_formatted_none (k : ℝ) (order : ℤ) (conc : ℝ)
    (res : CalculationResult ℝ) (h : half_life_core k order conc = .ok res) :
    res.formatted = none := by
  unfold half_life_core at h
  split_ifs at h <;> cases h <;> rfl

theorem map_encode_ok {α : Type} (e : Except String (CalculationResult α))
    (fields : List (String × JVal α)) (h : Except.map encodeResult e = .ok fields) :
    ∃ res, e = .ok res ∧ fields = encodeResult res := by
  cases e with
  | error msg => simp [Except.map] at h
  | ok res =>
    simp [Except.map] at h
    exact ⟨res, rfl, h.symm⟩

theorem enthalpy_ok_shape (reactants products : List (String × ℚ))
    (data : List (String × ThermodynamicData)) (fields : List (String × JVal ℚ))
    (h : calculate_reaction_enthalpy reactants products data = .ok fields) :
    ∃ res : CalculationResult ℚ, res.formatted = none ∧ fields = encodeResult res := by
  unfold calculate_reaction_enthalpy at h
  obtain ⟨res, hres, rfl⟩ := map_encode_ok _ _ h
  exact ⟨res, enthalpy_core_formatted_none reactants products data res hres, rfl⟩

theorem entropy_ok_shape (reactants products : List (String × ℚ))
    (data : List (String × ThermodynamicData)) (fields : List (String × JVal ℚ))
    (h : calculate_reaction_entropy reactants products data = .ok fields) :
    ∃ res : CalculationResult ℚ, res.formatted = none ∧ fields = encodeResult res := by
  unfold calculate_reaction_entropy at h
  obtain ⟨res, hres, rfl⟩ := map_encode_ok _ _ h
  exact ⟨res, entropy_core_formatted_none reactants products data res hres, rfl⟩

theorem gibbs_ok_shape (a b c : String) (fields : List (String × JVal ℚ))
    (h : calculate_gibbs_energy a b c = .ok fields) :
    ∃ res : CalculationResult ℚ, res.formatted = none ∧ fields = encodeResult res := by
  unfold calculate_gibbs_energy at h
  split at h
  · cases h
  · split at h
    · cases h
    · split at h
      · cases h
      · exact ⟨_, rfl, (by cases h; rfl)⟩

theorem equilibrium_ok_shape (a b : String) (fields : List (String × JVal ℝ))
    (h : calculate_equilibrium_constant a b = .ok fields) :
    ∃ res : CalculationResult ℝ, res.formatted = none ∧ fields = encodeResult res := by
  unfold calculate_equilibrium_constant at h
  split at h
  · cases h
  · split at h
    · cases h
    · exact ⟨_, rfl, (by cases h; rfl)⟩

theorem arrhenius_ok_shape (a b c : String) (fields : List (String × JVal ℝ))
    (h : calculate_rate_constant_arrhenius a b c = .ok fields) :
    ∃ res : CalculationResult ℝ, res.formatted = none ∧ fields = encodeResult res := by
  unfold calculate_rate_constant_arrhenius at h
  split at h
  · cases h
  · split at h
    · cases h
    · split at h
      · cases h
      · exact ⟨_, rfl, (by cases h; rfl)⟩

theorem eyring_ok_shape (a b c : String) (fields : List (String × JVal ℝ))
    (h : calculate_rate_constant_eyring a b c = .ok fields) :
    ∃ res : CalculationResult ℝ, res.formatted = none ∧ fields = encodeResult res := by
  unfold calculate_rate_constant_eyring at h
  split at h
  · cases h
  · split at h
    · cases h
    · split at h
      · cases h
      · exact ⟨_, rfl, (by cases h; rfl)⟩

theorem activation_ok_shape (a b c d : String) (fields : List (String × JVal ℝ))
    (h : calculate_activation_energy a b c d = .ok fields) :
    ∃ res : CalculationResult ℝ, res.formatted = none ∧ fields = encodeResult res := by
  unfold calculate_activation_energy at h
  split at h
  · cases h
  · split at h
    · cases h
    · split at h
      · cases h
      · split at h
        · cases h
        · exact ⟨_, rfl, (by cases h; rfl)⟩

theorem half_life_ok_shape (a b c : String) (fields : List (String × JVal ℝ))
    (h : calculate_half_life a b c = .ok fields) :
    ∃ res : CalculationResult ℝ, res.formatted = none ∧ fields = encodeResult res := by
  unfold calculate_half_life at h
  split at h
  · cases h
  · split at h
    · cases h
    · obtain ⟨res, hres, rfl⟩ := map_encode_ok _ _ h
      exact ⟨res, half_life_core_formatted_none _ _ _ res hres, rfl⟩

/-- C3 counterexample: `get_substance_data` does not return a
`{value, unit, formatted?}`-shaped record; on a successful lookup it
returns the raw thermodynamic record with fields
`delta_Hf`, `S`, `delta_Gf`. -/
theorem substance_output_not_result_shape :
    get_substance_data "H2O" [("H2O", ⟨-286, 70, -237⟩)] =
      .ok (encodeThermo ⟨-286, 70, -237⟩) ∧
    ¬ isResultShape (encodeThermo ⟨-286, 70, -237⟩) :=
  ⟨by decide, by unfold isResultShape; decide⟩

/-- C3 amended: every exposed calculation operation, on success, returns
a record of shape `{value, unit, formatted?}`; `get_substance_data`
instead returns the raw thermodynamic record (serialised fields
`delta_Hf`, `S`, `delta_Gf`); the pure-formatting operation returns the
formatted string directly. -/
theorem output_record_shapes :
    (∀ r p data fields, calculate_reaction_enthalpy r p data = .ok fields →
       isResultShape fields) ∧
    (∀ r p data fields, calculate_reaction_entropy r p data = .ok fields →
       isResultShape fields) ∧
    (∀ a b c fields, calculate_gibbs_energy a b c = .ok fields →
       isResultShape fields) ∧
    (∀ a b fields, calculate_equilibrium_constant a b = .ok fields →
       isResultShape fields) ∧
    (∀ a b c fields, calculate_rate_constant_arrhenius a b c = .ok fields →
       isResultShape fields) ∧
    (∀ a b c fields, calculate_rate_constant_eyring a b c = .ok fields →
       isResultShape fields) ∧
    (∀ a b c d fields, calculate_activation_energy a b c d = .ok fields →
       isResultShape fields) ∧
    (∀ a b c fields, calculate_half_life a b c = .ok fields →
       isResultShape fields) ∧
    (∀ f data fields, get_substance_data f data = .ok fields →
       ∃ d, lookupData data f = some d ∧ fields = encodeThermo d ∧
         fields.map Prod.fst = ["delta_Hf", "S", "delta_Gf"]) := by
  refine ⟨?_, ?_, ?_, ?_, ?_, ?_, ?_, ?_, ?_⟩
  · intro r p data fields h
    obtain ⟨res, _, rfl⟩ := enthalpy_ok_shape r p data fields h
    exact isResultShape_encode res
  · intro r p data fields h
    obtain ⟨res, _, rfl⟩ := entropy_ok_shape r p data fields h
    exact isResultShape_encode res
  · intro a b c fields h
    obtain ⟨res, _, rfl⟩ := gibbs_ok_shape a b c fields h
    exact isResultShape_encode res
  · intro a b fields h
    obtain ⟨res, _, rfl⟩ := equilibrium_ok_shape a b fields h
    exact isResultShape_encode res
  · intro a b c fields h
    obtain ⟨res, _, rfl⟩ := arrhenius_ok_shape a b c fields h
    exact isResultShape_encode res
  · intro a b c fields h
    obtain ⟨res, _, rfl⟩ := eyring_ok_shape a b c fields h
    exact isResultShape_encode res
  · intro a b c d fields h
    obtain ⟨res, _, rfl⟩ := activation_ok_shape a b c d fields h
    exact isResultShape_encode res
  · intro a b c fields h
    obtain ⟨res, _, rfl⟩ := half_life_ok_shape a b c fields h
    exact isResultShape_encode res
  · intro f data fields h
    unfold get_substance_data at h
    split at h
    · cases h
    · rename_i d hd
      cases h
      exact ⟨d, hd, rfl, by simp [encodeThermo]⟩

unseal Rat.add Rat.sub Rat.mul Rat.inv Rat.ofScientific in
theorem output_record_shapes_witness :
    isResultShape [("value", JVal.num ((0 : ℚ) - 0 * (0 / 1000))),
      ("unit", JVal.str "kJ/mol")] :=
  output_record_shapes.2.2.1 "0" "0" "0"
    [("value", JVal.num ((0 : ℚ) - 0 * (0 / 1000))), ("unit", JVal.str "kJ/mol")]
    (by decide)

/-- C10: every calculation operation that succeeds produces a record
whose `formatted` field is `None`, and since serialisation skips a `None`
`formatted`, the serialised output never contains a `formatted` key. -/
theorem calc_outputs_never_formatted :
    (∀ r p data fields, calculate_reaction_enthalpy r p data = .ok fields →
       "formatted" ∉ fields.map Prod.fst) ∧
    (∀ r p data fields, calculate_reaction_entropy r p data = .ok fields →
       "formatted" ∉ fields.map Prod.fst) ∧
    (∀ a b c fields, calculate_gibbs_energy a b c = .ok fields →
       "formatted" ∉ fields.map Prod.fst) ∧
    (∀ a b fields, calculate_equilibrium_constant a b = .ok fields →
       "formatted" ∉ fields.map Prod.fst) ∧
    (∀ a b c fields, calculate_rate_constant_arrhenius a b c = .ok fields →
       "formatted" ∉ fields.map Prod.fst) ∧
    (∀ a b c fields, calculate_rate_constant_eyring a b c = .ok fields →
       "formatted" ∉ fields.map Prod.fst) ∧
    (∀ a b c d fields, calculate_activation_energy a b c d = .ok fields →
       "formatted" ∉ fields.map Prod.fst) ∧
    (∀ a b c fields, calculate_half_life a b c = .ok fields →
       "formatted" ∉ fields.map Prod.fst) := by
  refine ⟨?_, ?_, ?_, ?_, ?_, ?_, ?_, ?_⟩
  · intro r p data fields h
    obtain ⟨res, hn, rfl⟩ := enthalpy_ok_shape r p data fields h
    exact not_formatted_of_encode_none res hn
  · intro r p data fields h
    obtain ⟨res, hn, rfl⟩ := entropy_ok_shape r p data fields h
    exact not_formatted_of_encode_none res hn
  · intro a b c fields h
    obtain ⟨res, hn, rfl⟩ := gibbs_ok_shape a b c fields h
    exact not_formatted_of_encode_none res hn
  · intro a b fields h
    obtain ⟨res, hn, rfl⟩ := equilibrium_ok_shape a b fields h
    exact not_formatted_of_encode_none res hn
  · intro a b c fields h
    obtain ⟨res, hn, rfl⟩ := arrhenius_ok_shape a b c fields h
    exact not_formatted_of_encode_none res hn
  · intro a b c fields h
    obtain ⟨res, hn, rfl⟩ := eyring_ok_shape a b c fields h
    exact not_formatted_of_encode_none res hn
  · intro a b c d fields h
    obtain ⟨res, hn, rfl⟩ := activation_ok_shape a b c d fields h
    exact not_formatted_of_encode_none res hn
  · intro a b c fields h
    obtain ⟨res, hn, rfl⟩ := half_life_ok_shape a b c fields h
    exact not_formatted_of_encode_none res hn

unseal Rat.add Rat.sub Rat.mul Rat.inv Rat.ofScientific in
theorem calc_outputs_never_formatted_witness :
    "formatted" ∉ (List.map Prod.fst
      [("value", JVal.num ((0 : ℚ) - 0 * (0 / 1000))), ("unit", JVal.str "kJ/mol")]) :=
  calc_outputs_never_formatted.2.2.1 "0" "0" "0"
    [("value", JVal.num ((0 : ℚ) - 0 * (0 / 1000))), ("unit", JVal.str "kJ/mol")]
    (by decide)

/-- C8: the three tolerant inputs fall back to defaults on parse failure
(precision to 2, scientific flag to false, initial concentration to 1.0),
while every other unparsable numeric or boolean literal makes its
operation fail. -/
theorem tolerant_defaults_strict_failures :
    (∀ vs ps ss v, parseF64 vs = some v → parseUsize ps = none →
       format_number vs ps ss = .ok (formatNumberCore v 2 ((parseBool ss).getD false))) ∧
    (∀ vs ps ss v, parseF64 vs = some v → parseBool ss = none →
       format_number vs ps ss = .ok (formatNumberCore v ((parseUsize ps).getD 2) false)) ∧
    (∀ ks os cs k o, parseF64 ks = some k → parseI32 os = some o → parseF64 cs = none →
       calculate_half_life ks os cs = Except.map encodeResult (half_life_core (k : ℝ) o 1)) ∧
    (∀ vs ps ss, parseF64 vs = none → isErr (format_number vs ps ss) = true) ∧
    (∀ a b c, parseF64 a = none ∨ parseF64 b = none ∨ parseF64 c = none →
       isErr (calculate_gibbs_energy a b c) = true) ∧
    (∀ a b, parseF64 a = none ∨ parseF64 b = none →
       isErr (calculate_equilibrium_constant a b) = true) ∧
    (∀ a b c, parseF64 a = none ∨ parseF64 b = none ∨ parseF64 c = none →
       isErr (calculate_rate_constant_arrhenius a b c) = true) ∧
    (∀ a b c, parseF64 a = none ∨ parseF64 b = none ∨ parseF64 c = none →
       isErr (calculate_rate_constant_eyring a b c) = true) ∧
    (∀ a b c d, parseF64 a = none ∨ parseF64 b = none ∨ parseF64 c = none ∨
        parseF64 d = none →
       isErr (calculate_activation_energy a b c d) = true) ∧
    (∀ ks os cs, parseF64 ks = none ∨ parseI32 os = none →
       isErr (calculate_half_life ks os cs) = true) := by
  refine ⟨?_, ?_, ?_, ?_, ?_, ?_, ?_, ?_, ?_, ?_⟩
  · intro vs ps ss v hv hp
    simp [format_number, parseFloatField, hv, hp]
  · intro vs ps ss v hv hs
    simp [format_number, parseFloatField, hv, hs]
  · intro ks os cs k o hk ho hc
    simp [calculate_half_life, parseFloatField, hk, ho, hc]
  · intro vs ps ss hv
    simp [format_number, parseFloatField, hv, isErr]
  · intro a b c h
    cases ha : parseF64 a <;> cases hb : parseF64 b <;> cases hcc : parseF64 c <;>
      simp_all [calculate_gibbs_energy, parseFloatField, isErr]
  · intro a b h
    cases ha : parseF64 a <;> cases hb : parseF64 b <;>
      simp_all [calculate_equilibrium_constant, parseFloatField, isErr]
  · intro a b c h
    cases ha : parseF64 a <;> cases hb : parseF64 b <;> cases hcc : parseF64 c <;>
      simp_all [calculate_rate_constant_arrhenius, parseFloatField, isErr]
  · intro a b c h
    cases ha : parseF64 a <;> cases hb : parseF64 b <;> cases hcc : parseF64 c <;>
      simp_all [calculate_rate_constant_eyring, parseFloatField, isErr]
  · intro a b c d h
    cases ha : parseF64 a <;> cases hb : parseF64 b <;> cases hcc : parseF64 c <;>
      cases hd : parseF64 d <;>
      simp_all [calculate_activation_energy, parseFloatField, isErr]
  · intro ks os cs h
    cases hk : parseF64 ks <;> cases ho : parseI32 os <;>
      simp_all [calculate_half_life, parseFloatField, isErr]

unseal Rat.add Rat.sub Rat.mul Rat.inv Rat.ofScientific in
theorem tolerant_defaults_strict_failures_witness :
    format_number "1.5" "x" "y" = .ok "1.50" := by
  have h := tolerant_defaults_strict_failures.1 "1.5" "x" "y" (3 / 2)
    (by decide) (by decide)
  exact h.trans (by decide)

end Energetium
